import Mathlib

/-!
Verification of the Kuzu graph-sync core of mcp-memory-service
(`src/mcp_memory_service/storage/graph_sync.py`).

The embedding models the graph store as an explicit state (a list of memory
nodes and a list of typed edges) and each `conn.execute` call as one step
that can succeed or raise, driven by an `Oracle : Nat → Bool` consulted at a
running call counter.  A `try/except` block in the source becomes a branch on
the oracle: on success the query's effect is applied, on failure the
operation returns its sentinel and the state is unchanged.  Strings are Lean
`String`s; similarity scores are exact rationals.  The Cypher semantics used
for the edge-creation queries is the one Kuzu implements: `MATCH` over the
two node patterns binds every matching node (the two variables may bind the
same node), and a `CREATE` after a `MATCH` that produced no rows is a
successful no-op.
-/

set_option maxRecDepth 40000

/-- Similarity score at or above which a RELATES_TO edge is proposed
(`RELATES_TO_THRESHOLD = 0.75`; written `mkRat` so the kernel can evaluate,
proved equal to the decimal literal below). -/
def RELATES_TO_THRESHOLD : ℚ := mkRat 75 100

/-- Similarity score at or above which a SUPERSEDES edge is proposed
(`SUPERSEDES_THRESHOLD = 0.90`). -/
def SUPERSEDES_THRESHOLD : ℚ := mkRat 90 100

/-- Cap on classified edges per sync call (`MAX_RELATIONS_PER_MEMORY = 5`). -/
def MAX_RELATIONS_PER_MEMORY : ℕ := 5

/-- The characters removed by `_sanitize_string`'s first substitution,
the Python regex `[\'\"\\`]`. -/
def isQuoteLike (c : Char) : Bool :=
  c == Char.ofNat 39 || c == Char.ofNat 34 || c == Char.ofNat 92 || c == Char.ofNat 96

/-- The characters hit by `_sanitize_string`'s second substitution,
the Python regex `[\x00-\x1f]` (replaced by a space). -/
def isCtrl (c : Char) : Bool := c.toNat < 32

/-- `GraphSync._sanitize_string`: empty in, empty out; otherwise truncate to
`maxLen`, delete quote-like characters, replace control characters by a
space. -/
def _sanitize_string (s : String) (maxLen : ℕ) : String :=
  if s.data.isEmpty then ""
  else
    String.mk (((s.data.take maxLen).filter (fun c => !(isQuoteLike c))).map
      (fun c => if isCtrl c then Char.ofNat 32 else c))

/-- Python truthiness of `a or b` for an optional string: `None` and `""` fall
back to the default. -/
def pyOr (s : Option String) (d : String) : String :=
  match s with
  | none => d
  | some t => if t.isEmpty then d else t

/-- The three edge tables of the graph schema. -/
inductive EdgeType where
  | RELATES_TO
  | SUPERSEDES
  | CONTRADICTS
deriving DecidableEq

/-- A Memory node row: `hash`, `content_preview`, `created_at`,
`memory_type`. -/
structure Node where
  hash : String
  content_preview : String
  created_at : String
  memory_type : String
deriving DecidableEq

/-- An edge row.  `strength` is set only on RELATES_TO edges; `reason` holds
the SUPERSEDES `reason` or the CONTRADICTS `resolution`; `created` holds
`created_at` (or `detected_at` for CONTRADICTS). -/
structure Edge where
  etype : EdgeType
  src : String
  tgt : String
  strength : Option ℚ
  reason : Option String
  created : String
deriving DecidableEq

/-- The embedded graph store's state. -/
structure Graph where
  nodes : List Node
  edges : List Edge
deriving DecidableEq

/-- Whether some node row carries the given hash (the `MATCH … RETURN`
existence probe's answer). -/
def hasNode (g : Graph) (h : String) : Bool :=
  g.nodes.any (fun n => n.hash == h)

/-- The empty store. -/
def emptyStore : Graph := ⟨[], []⟩

/-- Success/failure of each `conn.execute` call, indexed by a running call
counter. -/
def Oracle : Type := ℕ → Bool

/-- `GraphSync.node_exists`: one probe query; an exception degrades to
`false`. -/
def node_exists (contentHash : String) (g : Graph) (o : Oracle) (k : ℕ) :
    Bool × Graph × ℕ :=
  if o k then (hasNode g contentHash, g, k + 1) else (false, g, k + 1)

/-- `GraphSync.add_memory_node`: `false` without mutation when the node
exists; otherwise sanitize the text fields and `CREATE` the node, `false` on
a failing `CREATE`. -/
def add_memory_node (contentHash content : String)
    (memoryType createdAt : Option String) (now : String)
    (g : Graph) (o : Oracle) (k : ℕ) : Bool × Graph × ℕ :=
  let ex := node_exists contentHash g o k
  if ex.1 then (false, ex.2.1, ex.2.2)
  else if o ex.2.2 then
    (true,
      { ex.2.1 with nodes := ex.2.1.nodes ++
          [{ hash := contentHash,
             content_preview := _sanitize_string content 200,
             created_at := pyOr createdAt now,
             memory_type := _sanitize_string (pyOr memoryType "unknown") 50 }] },
      ex.2.2 + 1)
  else (false, ex.2.1, ex.2.2 + 1)

/-- `GraphSync.add_relates_to`: one `MATCH … CREATE` query.  When the query
runs, the edge is created only if both endpoint hashes match a node (a
`MATCH` with no rows makes the `CREATE` a no-op) — the call still returns
`true`.  Only an exception yields `false`. -/
def add_relates_to (fromHash toHash : String) (strength : ℚ)
    (createdAt : Option String) (now : String)
    (g : Graph) (o : Oracle) (k : ℕ) : Bool × Graph × ℕ :=
  if o k then
    (true,
      (if hasNode g fromHash && hasNode g toHash then
        { g with edges := g.edges ++
            [{ etype := .RELATES_TO, src := fromHash, tgt := toHash,
               strength := some strength, reason := none,
               created := pyOr createdAt now }] }
      else g),
      k + 1)
  else (false, g, k + 1)

/-- `GraphSync.add_supersedes`: as `add_relates_to`, with the `reason` field
sanitized to 100 characters. -/
def add_supersedes (newHash oldHash : String) (reason : String)
    (createdAt : Option String) (now : String)
    (g : Graph) (o : Oracle) (k : ℕ) : Bool × Graph × ℕ :=
  if o k then
    (true,
      (if hasNode g newHash && hasNode g oldHash then
        { g with edges := g.edges ++
            [{ etype := .SUPERSEDES, src := newHash, tgt := oldHash,
               strength := none, reason := some (_sanitize_string reason 100),
               created := pyOr createdAt now }] }
      else g),
      k + 1)
  else (false, g, k + 1)

/-- `GraphSync.add_contradicts`: as `add_supersedes`, with `resolution`
sanitized to 100 characters and `detected_at` in the timestamp field. -/
def add_contradicts (hashA hashB : String) (resolution : String)
    (detectedAt : Option String) (now : String)
    (g : Graph) (o : Oracle) (k : ℕ) : Bool × Graph × ℕ :=
  if o k then
    (true,
      (if hasNode g hashA && hasNode g hashB then
        { g with edges := g.edges ++
            [{ etype := .CONTRADICTS, src := hashA, tgt := hashB,
               strength := none, reason := some (_sanitize_string resolution 100),
               created := pyOr detectedAt now }] }
      else g),
      k + 1)
  else (false, g, k + 1)

/-- `GraphSync.ensure_node_exists`: probe, then `CREATE` a stub node
(`memory_type = "stub"`, fixed preview) when absent; `false` only when the
stub `CREATE` raises. -/
def ensure_node_exists (contentHash now : String)
    (g : Graph) (o : Oracle) (k : ℕ) : Bool × Graph × ℕ :=
  let ex := node_exists contentHash g o k
  if ex.1 then (true, ex.2.1, ex.2.2)
  else if o ex.2.2 then
    (true,
      { ex.2.1 with nodes := ex.2.1.nodes ++
          [{ hash := contentHash,
             content_preview := "(stub - created for edge)",
             created_at := now,
             memory_type := "stub" }] },
      ex.2.2 + 1)
  else (false, ex.2.1, ex.2.2 + 1)

/-- The decision in `sync_with_provenance`'s candidate loop:
`if similarity >= SUPERSEDES_THRESHOLD … elif similarity >=
RELATES_TO_THRESHOLD … else` nothing. -/
inductive EdgeClass where
  | supersedes
  | relatesTo
  | noEdge
deriving DecidableEq

/-- The edge classifier (the `if/elif` ladder of the candidate loop). -/
def classify (similarity : ℚ) : EdgeClass :=
  if SUPERSEDES_THRESHOLD ≤ similarity then .supersedes
  else if RELATES_TO_THRESHOLD ≤ similarity then .relatesTo
  else .noEdge

/-- Return shape of `sync_with_provenance`. -/
structure SyncResult where
  node_created : Bool
  relates_to : List String
  supersedes : List String
  contradicts : List String
deriving DecidableEq

/-- The candidate loop of `sync_with_provenance` over the (already sliced)
candidate list: skip a candidate equal to the new hash, otherwise
`ensure_node_exists` on it, classify, create the corresponding edge and
record its hash when the edge call returned `true`. -/
def syncLoop (contentHash now : String) (o : Oracle) :
    List (String × ℚ) → Graph → ℕ → (List String × List String) × Graph × ℕ
  | [], g, k => (([], []), g, k)
  | (relatedHash, similarity) :: rest, g, k =>
    if relatedHash == contentHash then syncLoop contentHash now o rest g k
    else
      let e := ensure_node_exists relatedHash now g o k
      match classify similarity with
      | .supersedes =>
        let a := add_supersedes contentHash relatedHash "High similarity update"
          none now e.2.1 o e.2.2
        let r := syncLoop contentHash now o rest a.2.1 a.2.2
        ((r.1.1, if a.1 then relatedHash :: r.1.2 else r.1.2), r.2)
      | .relatesTo =>
        let a := add_relates_to contentHash relatedHash similarity
          none now e.2.1 o e.2.2
        let r := syncLoop contentHash now o rest a.2.1 a.2.2
        ((if a.1 then relatedHash :: r.1.1 else r.1.1, r.1.2), r.2)
      | .noEdge => syncLoop contentHash now o rest e.2.1 e.2.2

/-- `GraphSync.sync_with_provenance`: add the node; on `false` return the
all-empty result at once; otherwise run the loop over the first
`MAX_RELATIONS_PER_MEMORY` candidates. -/
def sync_with_provenance (contentHash content : String)
    (memoryType createdAt : Option String)
    (similarMemories : List (String × ℚ)) (now : String)
    (g : Graph) (o : Oracle) (k : ℕ) : SyncResult × Graph × ℕ :=
  let a := add_memory_node contentHash content memoryType createdAt now g o k
  if a.1 then
    let r := syncLoop contentHash now o
      (similarMemories.take MAX_RELATIONS_PER_MEMORY) a.2.1 a.2.2
    (⟨true, r.1.1, r.1.2, []⟩, r.2)
  else (⟨false, [], [], []⟩, a.2.1, a.2.2)

/-- An edge type traversed by the provenance chain query
(`[r:SUPERSEDES|RELATES_TO*1..depth]`). -/
def provQualifies (e : Edge) : Bool :=
  e.etype == .SUPERSEDES || e.etype == .RELATES_TO

/-- The qualifying edges leaving a node. -/
def outEdges (g : Graph) (h : String) : List Edge :=
  g.edges.filter (fun e => e.src == h && provQualifies e)

/-- The node a path (list of edges) starting at `start` ends on. -/
def pathEnd (start : String) (p : List Edge) : String :=
  (p.getLast?.map Edge.tgt).getD start

/-- One traversal step: extend each path by every qualifying outgoing edge
not already on the path (trail semantics of a variable-length match). -/
def extendPaths (g : Graph) (start : String) (ps : List (List Edge)) :
    List (List Edge) :=
  ps.flatMap (fun p =>
    ((outEdges g (pathEnd start p)).filter (fun e => !(p.contains e))).map
      (fun e => p ++ [e]))

/-- All trails of exactly `n` qualifying edges starting at `start`. -/
def pathsOfLen (g : Graph) (start : String) : ℕ → List (List Edge)
  | 0 => [[]]
  | n + 1 => extendPaths g start (pathsOfLen g start n)

/-- `content_preview` of the node with a given hash. -/
def previewOf (g : Graph) (h : String) : String :=
  ((g.nodes.find? (fun n => n.hash == h)).map Node.content_preview).getD ""

/-- One row of `get_provenance_chain`'s answer: related hash, its preview,
the relationship types along the path, and the path length. -/
structure ChainEntry where
  hash : String
  preview : String
  relationship : List EdgeType
  depth : ℕ
deriving DecidableEq

/-- The rows of the variable-length match, ordered by ascending path length
(the query's `ORDER BY length(path)`). -/
def chainRows (g : Graph) (contentHash : String) (depth : ℕ) :
    List ChainEntry :=
  (List.range depth).flatMap (fun i =>
    (pathsOfLen g contentHash (i + 1)).map (fun p =>
      { hash := pathEnd contentHash p,
        preview := previewOf g (pathEnd contentHash p),
        relationship := p.map Edge.etype,
        depth := p.length }))

/-- `GraphSync.get_provenance_chain`: one query; an exception yields the
empty chain. -/
def get_provenance_chain (contentHash : String) (depth : ℕ)
    (g : Graph) (o : Oracle) (k : ℕ) : List ChainEntry × Graph × ℕ :=
  if o k then (chainRows g contentHash depth, g, k + 1)
  else ([], g, k + 1)

/-- The statistics record built by `get_stats`. -/
structure Stats where
  nodes : ℕ
  edges_relates_to : ℕ
  edges_supersedes : ℕ
  edges_contradicts : ℕ
  edges_caused_by : ℕ
  edges_derived_from : ℕ
  total_edges : ℕ
deriving DecidableEq

/-- `get_stats` either returns counts or a dict with only an `"error"`
key. -/
inductive StatsResult where
  | ok (s : Stats)
  | error (msg : String)
deriving DecidableEq

/-- Number of edges of one type. -/
def countEdges (g : Graph) (t : EdgeType) : ℕ :=
  (g.edges.filter (fun e => e.etype == t)).length

/-- `GraphSync.get_stats`: six sequential count queries (nodes, then the
five recognized edge types, of which CAUSED_BY and DERIVED_FROM are never
produced by this core, so their counts are 0); a failure at any of them
aborts into the error result. -/
def get_stats (g : Graph) (o : Oracle) (k : ℕ) : StatsResult × Graph × ℕ :=
  if !(o k) then (.error "nodes", g, k + 1)
  else if !(o (k + 1)) then (.error "RELATES_TO", g, k + 2)
  else if !(o (k + 2)) then (.error "SUPERSEDES", g, k + 3)
  else if !(o (k + 3)) then (.error "CONTRADICTS", g, k + 4)
  else if !(o (k + 4)) then (.error "CAUSED_BY", g, k + 5)
  else if !(o (k + 5)) then (.error "DERIVED_FROM", g, k + 6)
  else
    (.ok { nodes := g.nodes.length,
           edges_relates_to := countEdges g .RELATES_TO,
           edges_supersedes := countEdges g .SUPERSEDES,
           edges_contradicts := countEdges g .CONTRADICTS,
           edges_caused_by := 0,
           edges_derived_from := 0,
           total_edges := countEdges g .RELATES_TO + countEdges g .SUPERSEDES
             + countEdges g .CONTRADICTS + 0 + 0 },
     g, k + 6)

/-- The all-success oracle. -/
def okOracle : Oracle := fun _ => true

/-- The query text `node_exists` hands to the store: the f-string
`MATCH (m:Memory {hash: '{content_hash}'}) RETURN m.hash` (the braces are
literal in the query and written `\x7b`/`\x7d` here). -/
def node_exists_query (contentHash : String) : String :=
  "MATCH (m:Memory \x7bhash: '" ++ contentHash ++ "'\x7d) RETURN m.hash"

/-- The query text `add_memory_node` hands to the store, built exactly as
the source's f-string: `content` and `memory_type` pass through
`_sanitize_string`, `content_hash` and `created_at` are interpolated
verbatim. -/
def add_memory_node_query (contentHash content : String)
    (memoryType createdAt : Option String) (now : String) : String :=
  let preview := _sanitize_string content 200
  let memType := _sanitize_string (pyOr memoryType "unknown") 50
  let created := pyOr createdAt now
  "\n                CREATE (m:Memory \x7b\n                    hash: '"
    ++ contentHash
    ++ "',\n                    content_preview: '" ++ preview
    ++ "',\n                    created_at: '" ++ created
    ++ "',\n                    memory_type: '" ++ memType
    ++ "'\n                \x7d)\n            "

/-- The query text `add_relates_to` hands to the store; every interpolation
(`from_hash`, `to_hash`, the float `strength`, `created_at`) is verbatim.
`strengthRepr` stands for Python's decimal rendering of the float. -/
def add_relates_to_query (fromHash toHash strengthRepr : String)
    (createdAt : Option String) (now : String) : String :=
  let created := pyOr createdAt now
  "\n                MATCH (a:Memory \x7bhash: '" ++ fromHash
    ++ "'\x7d), (b:Memory \x7bhash: '" ++ toHash
    ++ "'\x7d)\n                CREATE (a)-[:RELATES_TO \x7bstrength: "
    ++ strengthRepr
    ++ ", created_at: '" ++ created
    ++ "'\x7d]->(b)\n            "

/-- The query text `add_supersedes` hands to the store: only `reason`
passes through `_sanitize_string`; both hashes and `created_at` are
verbatim. -/
def add_supersedes_query (newHash oldHash reason : String)
    (createdAt : Option String) (now : String) : String :=
  let created := pyOr createdAt now
  let reasonSafe := _sanitize_string reason 100
  "\n                MATCH (new:Memory \x7bhash: '" ++ newHash
    ++ "'\x7d), (old:Memory \x7bhash: '" ++ oldHash
    ++ "'\x7d)\n                CREATE (new)-[:SUPERSEDES \x7breason: '"
    ++ reasonSafe
    ++ "', created_at: '" ++ created
    ++ "'\x7d]->(old)\n            "

/-- The query text `add_contradicts` hands to the store: only `resolution`
is sanitized; the hashes and `detected_at` are verbatim. -/
def add_contradicts_query (hashA hashB resolution : String)
    (detectedAt : Option String) (now : String) : String :=
  let detected := pyOr detectedAt now
  let resolutionSafe := _sanitize_string resolution 100
  "\n                MATCH (a:Memory \x7bhash: '" ++ hashA
    ++ "'\x7d), (b:Memory \x7bhash: '" ++ hashB
    ++ "'\x7d)\n                CREATE (a)-[:CONTRADICTS \x7bdetected_at: '"
    ++ detected
    ++ "', resolution: '" ++ resolutionSafe
    ++ "'\x7d]->(b)\n            "

/-- Whether `pat` is a leading block of `s`. -/
def leadsWith : List Char → List Char → Bool
  | [], _ => true
  | _ :: _, [] => false
  | a :: pa, b :: sb => a == b && leadsWith pa sb

/-- Whether `pat` occurs contiguously inside `s` (verbatim substring). -/
def hasSub (pat : List Char) : List Char → Bool
  | [] => leadsWith pat []
  | c :: rest => leadsWith pat (c :: rest) || hasSub pat rest

/-- The `mkRat` thresholds are the source's decimal constants. -/
theorem threshold_values :
    RELATES_TO_THRESHOLD = 0.75 ∧ SUPERSEDES_THRESHOLD = 0.90 := by
  constructor <;>
    norm_num [RELATES_TO_THRESHOLD, SUPERSEDES_THRESHOLD, Rat.mkRat_eq_div]

/-- C1: the edge classifier is a pure function of the similarity score with
inclusive lower band edges: `s ≥ 0.90` yields Supersedes, `0.75 ≤ s < 0.90`
yields RelatesTo, `s < 0.75` yields no edge; in particular `classify 0.90 =
Supersedes`, `classify 0.75 = RelatesTo`, `classify 0.899999 = RelatesTo`
and `classify 0.749999` yields no edge. -/
theorem C1_edge_classifier_bands :
    (∀ s : ℚ, 0.90 ≤ s → classify s = .supersedes) ∧
    (∀ s : ℚ, 0.75 ≤ s → s < 0.90 → classify s = .relatesTo) ∧
    (∀ s : ℚ, s < 0.75 → classify s = .noEdge) ∧
    classify 0.90 = .supersedes ∧ classify 0.75 = .relatesTo ∧
    classify 0.899999 = .relatesTo ∧ classify 0.749999 = .noEdge := by
  have hr : RELATES_TO_THRESHOLD = 0.75 := threshold_values.1
  have hs : SUPERSEDES_THRESHOLD = 0.90 := threshold_values.2
  have band1 : ∀ s : ℚ, 0.90 ≤ s → classify s = .supersedes := by
    intro s h
    rw [classify, hs, if_pos h]
  have band2 : ∀ s : ℚ, 0.75 ≤ s → s < 0.90 → classify s = .relatesTo := by
    intro s h1 h2
    rw [classify, hs, hr, if_neg (not_le.mpr h2), if_pos h1]
  have band3 : ∀ s : ℚ, s < 0.75 → classify s = .noEdge := by
    intro s h
    have h9 : s < 0.90 := lt_trans h (by norm_num)
    rw [classify, hs, hr, if_neg (not_le.mpr h9), if_neg (not_le.mpr h)]
  exact ⟨band1, band2, band3, band1 _ le_rfl, band2 _ le_rfl (by norm_num),
    band2 _ (by norm_num) (by norm_num), band3 _ (by norm_num)⟩

/-- Witness for C1 at concrete scores. -/
theorem C1_edge_classifier_bands_witness :
    classify 1 = .supersedes ∧ classify (mkRat 8 10) = .relatesTo ∧
    classify 0 = .noEdge :=
  ⟨C1_edge_classifier_bands.1 1 (by norm_num),
   C1_edge_classifier_bands.2.1 (mkRat 8 10)
     (by norm_num [Rat.mkRat_eq_div]) (by norm_num [Rat.mkRat_eq_div]),
   C1_edge_classifier_bands.2.2.1 0 (by norm_num)⟩

/-- C3: when the node with the given hash already exists (and the existence
probe runs), `sync_with_provenance` returns at once with `node_created =
false` and all three lists empty, the store untouched, after the single
probe query. -/
theorem C3_duplicate_sync_short_circuit :
    ∀ (g : Graph) (o : Oracle) (k : ℕ) (h c : String)
      (t cr : Option String) (now : String) (cands : List (String × ℚ)),
      o k = true → hasNode g h = true →
      sync_with_provenance h c t cr cands now g o k
        = (⟨false, [], [], []⟩, g, k + 1) := by
  intro g o k h c t cr now cands hok hex
  simp [sync_with_provenance, add_memory_node, node_exists, hok, hex]

/-- Witness for C3: re-syncing an existing hash with a high-scoring
candidate changes nothing. -/
theorem C3_duplicate_sync_short_circuit_witness :
    sync_with_provenance "a" "body" none none [("b", mkRat 95 100)] "now"
      ⟨[⟨"a", "p", "t", "note"⟩], []⟩ okOracle 0
      = (⟨false, [], [], []⟩, ⟨[⟨"a", "p", "t", "note"⟩], []⟩, 1) :=
  C3_duplicate_sync_short_circuit ⟨[⟨"a", "p", "t", "note"⟩], []⟩ okOracle 0
    "a" "body" none none "now" [("b", mkRat 95 100)] (by decide) (by decide)

/-- The sanitizer as the claim words it: the quote-like characters *and*
the ASCII control characters are removed (deleted), after truncation. -/
def sanitizeClaimed (s : String) (maxLen : ℕ) : String :=
  if s.data.isEmpty then ""
  else
    String.mk ((s.data.take maxLen).filter
      (fun c => !(isQuoteLike c) && !(isCtrl c)))

/-- C5 counterexample: on `"a\x00b"` the code returns `"a b"` — the control
character is replaced by a space, not removed as the claim states. -/
theorem C5_sanitizer_counterexample :
    _sanitize_string "a\x00b" 10 = "a b" ∧
    sanitizeClaimed "a\x00b" 10 = "ab" ∧
    _sanitize_string "a\x00b" 10 ≠ sanitizeClaimed "a\x00b" 10 := by decide

/-- C5 amended: quote-like characters (single and double quote, backtick,
backslash) are removed and control characters (U+0000–U+001F) are replaced
by spaces, after truncation to `maxLen`; hence the output has length at
most `maxLen` and contains no quote-like and no control character, and
empty input gives the empty string. -/
theorem C5_sanitizer_amended :
    ∀ (s : String) (n : ℕ),
      (_sanitize_string s n).data.length ≤ n ∧
      (∀ c ∈ (_sanitize_string s n).data,
        isQuoteLike c = false ∧ isCtrl c = false) ∧
      _sanitize_string "" n = "" := by
  intro s n
  refine ⟨?_, ?_, by simp [_sanitize_string]⟩
  · rw [_sanitize_string]
    split
    · simp
    · show (((s.data.take n).filter _).map _).length ≤ n
      rw [List.length_map]
      exact le_trans (List.length_filter_le _ _) (List.length_take_le _ _)
  · rw [_sanitize_string]
    split
    · simp
    · show ∀ c ∈ ((s.data.take n).filter _).map _, _
      intro c hc
      rcases List.mem_map.mp hc with ⟨a, ha, rfl⟩
      have hq : isQuoteLike a = false := by
        have := (List.mem_filter.mp ha).2
        simpa using this
      by_cases hca : isCtrl a = true
      · rw [if_pos hca]
        exact ⟨by decide, by decide⟩
      · rw [if_neg hca]
        exact ⟨hq, by simpa using hca⟩

/-- Witness for C5 amended at a concrete input holding a quote and a
control byte. -/
theorem C5_sanitizer_amended_witness :
    (_sanitize_string "a\x00b'" 10).data.length ≤ 10 ∧
    (isQuoteLike 'a' = false ∧ isCtrl 'a' = false) ∧
    _sanitize_string "" 10 = "" :=
  ⟨(C5_sanitizer_amended "a\x00b'" 10).1,
   (C5_sanitizer_amended "a\x00b'" 10).2.1 'a' (by decide),
   (C5_sanitizer_amended "" 10).2.2⟩

/-- C9: a `true` return from the edge primitives does not imply an edge was
created.  On the empty store `add_relates_to` returns `true` (the `MATCH`
yields no rows and the `CREATE` is a no-op) and the store is unchanged;
and when the stub creation inside `ensure_node_exists` fails (call 3 of the
trace), `sync_with_provenance` still records the candidate in `relates_to`
although no edge exists in the store. -/
theorem C9_true_return_without_edge :
    (add_relates_to "a" "b" (mkRat 8 10) none "now" emptyStore okOracle 0
      = (true, emptyStore, 1)) ∧
    ((sync_with_provenance "a" "body" none none [("b", mkRat 8 10)] "now"
        emptyStore (fun i => !(i == 3)) 0).1.relates_to = ["b"] ∧
     (sync_with_provenance "a" "body" none none [("b", mkRat 8 10)] "now"
        emptyStore (fun i => !(i == 3)) 0).2.1.edges = [] ∧
     (sync_with_provenance "a" "body" none none [("b", mkRat 8 10)] "now"
        emptyStore (fun i => !(i == 3)) 0).2.1.nodes.map Node.hash
       = ["a"]) := by decide

/-- C10: `content_hash` and `created_at` are interpolated into the query
text verbatim (a single quote inside them reaches the store); only the
content preview, memory type, reason and resolution fields pass through the
sanitizer, so a quote inside `content` or `reason` does not survive into
the query. -/
theorem C10_raw_interpolation :
    (hasSub "2025-01-01T00:00:00'x".data
      (add_memory_node_query "h1" "pay'load" none
        (some "2025-01-01T00:00:00'x") "now").data = true) ∧
    (hasSub "h'1".data
      (add_memory_node_query "h'1" "pay'load" none
        (some "2025-01-01T00:00:00'x") "now").data = true) ∧
    (hasSub "pay'load".data
      (add_memory_node_query "h1" "pay'load" none
        (some "2025-01-01T00:00:00'x") "now").data = false) ∧
    (hasSub "payload".data
      (add_memory_node_query "h1" "pay'load" none
        (some "2025-01-01T00:00:00'x") "now").data = true) ∧
    (hasSub "2025-01-01T00:00:00'x".data
      (add_relates_to_query "h1" "h2" "0.8"
        (some "2025-01-01T00:00:00'x") "now").data = true) ∧
    (hasSub "2025-01-01T00:00:00'x".data
      (add_supersedes_query "h1" "h2" "reason'bad"
        (some "2025-01-01T00:00:00'x") "now").data = true) ∧
    (hasSub "reason'bad".data
      (add_supersedes_query "h1" "h2" "reason'bad"
        (some "2025-01-01T00:00:00'x") "now").data = false) ∧
    (hasSub "reasonbad".data
      (add_supersedes_query "h1" "h2" "reason'bad"
        (some "2025-01-01T00:00:00'x") "now").data = true) := by decide

/-- `ensure_node_exists` never touches the edge table. -/
theorem ensure_node_exists_edges (h now : String) (g : Graph) (o : Oracle)
    (k : ℕ) : (ensure_node_exists h now g o k).2.1.edges = g.edges := by
  cases ho : o k <;> cases hn : hasNode g h <;> cases h1 : o (k + 1) <;>
    simp [ensure_node_exists, node_exists, ho, hn, h1]

/-- `add_memory_node` never touches the edge table. -/
theorem add_memory_node_edges (h c : String) (mt cr : Option String)
    (now : String) (g : Graph) (o : Oracle) (k : ℕ) :
    (add_memory_node h c mt cr now g o k).2.1.edges = g.edges := by
  cases ho : o k <;> cases hn : hasNode g h <;> cases h1 : o (k + 1) <;>
    simp [add_memory_node, node_exists, ho, hn, h1]

/-- `add_relates_to` leaves the edge table unchanged or appends exactly the
one RELATES_TO edge of the query. -/
theorem add_relates_to_edges (f t : String) (s : ℚ) (cr : Option String)
    (now : String) (g : Graph) (o : Oracle) (k : ℕ) :
    (add_relates_to f t s cr now g o k).2.1.edges = g.edges ∨
    (add_relates_to f t s cr now g o k).2.1.edges
      = g.edges ++ [⟨.RELATES_TO, f, t, some s, none, pyOr cr now⟩] := by
  cases ho : o k <;> cases hb : hasNode g f && hasNode g t <;>
    simp [add_relates_to, ho, hb]

/-- `add_supersedes` leaves the edge table unchanged or appends exactly the
one SUPERSEDES edge of the query. -/
theorem add_supersedes_edges (nh oh r : String) (cr : Option String)
    (now : String) (g : Graph) (o : Oracle) (k : ℕ) :
    (add_supersedes nh oh r cr now g o k).2.1.edges = g.edges ∨
    (add_supersedes nh oh r cr now g o k).2.1.edges
      = g.edges ++ [⟨.SUPERSEDES, nh, oh, none,
          some (_sanitize_string r 100), pyOr cr now⟩] := by
  cases ho : o k <;> cases hb : hasNode g nh && hasNode g oh <;>
    simp [add_supersedes, ho, hb]

/-- Every edge present after the candidate loop was there before, or goes
from the new hash to a different hash. -/
theorem syncLoop_edges (h now : String) (o : Oracle) :
    ∀ (cands : List (String × ℚ)) (g : Graph) (k : ℕ),
      ∀ e ∈ (syncLoop h now o cands g k).2.1.edges,
        e ∈ g.edges ∨ (e.src = h ∧ e.tgt ≠ h) := by
  intro cands
  induction cands with
  | nil => intro g k e he; simp [syncLoop] at he; exact Or.inl he
  | cons p rest ih =>
    rcases p with ⟨rh, sim⟩
    intro g k e he
    by_cases hrh : (rh == h) = true
    · rw [syncLoop] at he
      rw [if_pos hrh] at he
      exact ih g k e he
    · have hne : rh ≠ h := by simpa using hrh
      rw [syncLoop] at he
      rw [if_neg hrh] at he
      cases hc : classify sim with
      | supersedes =>
        rw [hc] at he
        rcases ih _ _ e he with h1 | h1
        · rcases add_supersedes_edges h rh "High similarity update" none now
            (ensure_node_exists rh now g o k).2.1 o
            (ensure_node_exists rh now g o k).2.2 with h2 | h2 <;>
            rw [h2, ensure_node_exists_edges] at h1
          · exact Or.inl h1
          · rcases List.mem_append.mp h1 with h3 | h3
            · exact Or.inl h3
            · simp at h3
              subst h3
              exact Or.inr ⟨rfl, hne⟩
        · exact Or.inr h1
      | relatesTo =>
        rw [hc] at he
        rcases ih _ _ e he with h1 | h1
        · rcases add_relates_to_edges h rh sim none now
            (ensure_node_exists rh now g o k).2.1 o
            (ensure_node_exists rh now g o k).2.2 with h2 | h2 <;>
            rw [h2, ensure_node_exists_edges] at h1
          · exact Or.inl h1
          · rcases List.mem_append.mp h1 with h3 | h3
            · exact Or.inl h3
            · simp at h3
              subst h3
              exact Or.inr ⟨rfl, hne⟩
        · exact Or.inr h1
      | noEdge =>
        rw [hc] at he
        have := ih _ _ e he
        rwa [ensure_node_exists_edges] at this

/-- The candidate loop adds at most one edge per candidate. -/
theorem syncLoop_edges_length (h now : String) (o : Oracle) :
    ∀ (cands : List (String × ℚ)) (g : Graph) (k : ℕ),
      (syncLoop h now o cands g k).2.1.edges.length
        ≤ g.edges.length + cands.length := by
  intro cands
  induction cands with
  | nil => intro g k; simp [syncLoop]
  | cons p rest ih =>
    rcases p with ⟨rh, sim⟩
    intro g k
    rw [syncLoop]
    by_cases hrh : (rh == h) = true
    · rw [if_pos hrh]
      exact le_trans (ih g k) (by simp)
    · rw [if_neg hrh]
      cases hc : classify sim with
      | supersedes =>
        refine le_trans (ih _ _) ?_
        have hlen : (add_supersedes h rh "High similarity update" none now
            (ensure_node_exists rh now g o k).2.1 o
            (ensure_node_exists rh now g o k).2.2).2.1.edges.length
            ≤ g.edges.length + 1 := by
          rcases add_supersedes_edges h rh "High similarity update" none now
            (ensure_node_exists rh now g o k).2.1 o
            (ensure_node_exists rh now g o k).2.2 with h2 | h2 <;>
            rw [h2, ensure_node_exists_edges] <;> simp
        simp only [List.length_cons]
        omega
      | relatesTo =>
        refine le_trans (ih _ _) ?_
        have hlen : (add_relates_to h rh sim none now
            (ensure_node_exists rh now g o k).2.1 o
            (ensure_node_exists rh now g o k).2.2).2.1.edges.length
            ≤ g.edges.length + 1 := by
          rcases add_relates_to_edges h rh sim none now
            (ensure_node_exists rh now g o k).2.1 o
            (ensure_node_exists rh now g o k).2.2 with h2 | h2 <;>
            rw [h2, ensure_node_exists_edges] <;> simp
        simp only [List.length_cons]
        omega
      | noEdge =>
        refine le_trans (ih _ _) ?_
        rw [ensure_node_exists_edges]
        simp only [List.length_cons]
        omega

/-- The loop's two result lists: together at most one entry per candidate,
each a subsequence of the candidate hashes in input order, and never
containing the new hash itself. -/
theorem syncLoop_lists (h now : String) (o : Oracle) :
    ∀ (cands : List (String × ℚ)) (g : Graph) (k : ℕ),
      ((syncLoop h now o cands g k).1.1.length
          + (syncLoop h now o cands g k).1.2.length ≤ cands.length) ∧
      (syncLoop h now o cands g k).1.1.Sublist (cands.map Prod.fst) ∧
      (syncLoop h now o cands g k).1.2.Sublist (cands.map Prod.fst) ∧
      h ∉ (syncLoop h now o cands g k).1.1 ∧
      h ∉ (syncLoop h now o cands g k).1.2 := by
  intro cands
  induction cands with
  | nil => intro g k; simp [syncLoop]
  | cons p rest ih =>
    rcases p with ⟨rh, sim⟩
    intro g k
    rw [syncLoop]
    by_cases hrh : (rh == h) = true
    · rw [if_pos hrh]
      rcases ih g k with ⟨l1, s1, s2, m1, m2⟩
      exact ⟨by simpa using Nat.le_succ_of_le l1, s1.cons rh, s2.cons rh, m1, m2⟩
    · have hne : rh ≠ h := by simpa using hrh
      rw [if_neg hrh]
      cases hc : classify sim with
      | supersedes =>
        dsimp only []
        rcases ih (add_supersedes h rh "High similarity update" none now
            (ensure_node_exists rh now g o k).2.1 o
            (ensure_node_exists rh now g o k).2.2).2.1
          (add_supersedes h rh "High similarity update" none now
            (ensure_node_exists rh now g o k).2.1 o
            (ensure_node_exists rh now g o k).2.2).2.2 with ⟨l1, s1, s2, m1, m2⟩
        cases ha : (add_supersedes h rh "High similarity update" none now
            (ensure_node_exists rh now g o k).2.1 o
            (ensure_node_exists rh now g o k).2.2).1
        · rw [if_neg Bool.false_ne_true]
          refine ⟨?_, s1.cons rh, s2.cons rh, m1, m2⟩
          simp only [List.length_cons]
          omega
        · rw [if_pos rfl]
          refine ⟨?_, s1.cons rh, s2.cons₂ rh, m1, ?_⟩
          · simp only [List.length_cons]
            omega
          · intro hm
            rcases List.mem_cons.mp hm with hm | hm
            · exact hne hm.symm
            · exact m2 hm
      | relatesTo =>
        dsimp only []
        rcases ih (add_relates_to h rh sim none now
            (ensure_node_exists rh now g o k).2.1 o
            (ensure_node_exists rh now g o k).2.2).2.1
          (add_relates_to h rh sim none now
            (ensure_node_exists rh now g o k).2.1 o
            (ensure_node_exists rh now g o k).2.2).2.2 with ⟨l1, s1, s2, m1, m2⟩
        cases ha : (add_relates_to h rh sim none now
            (ensure_node_exists rh now g o k).2.1 o
            (ensure_node_exists rh now g o k).2.2).1
        · rw [if_neg Bool.false_ne_true]
          refine ⟨?_, s1.cons rh, s2.cons rh, m1, m2⟩
          simp only [List.length_cons]
          omega
        · rw [if_pos rfl]
          refine ⟨?_, s1.cons₂ rh, s2.cons rh, ?_, m2⟩
          · simp only [List.length_cons]
            omega
          · intro hm
            rcases List.mem_cons.mp hm with hm | hm
            · exact hne hm.symm
            · exact m1 hm
      | noEdge =>
        dsimp only []
        rcases ih (ensure_node_exists rh now g o k).2.1
          (ensure_node_exists rh now g o k).2.2 with ⟨l1, s1, s2, m1, m2⟩
        exact ⟨by simpa using Nat.le_succ_of_le l1, s1.cons rh, s2.cons rh, m1, m2⟩

/-- C2: per sync call at most `MAX_RELATIONS_PER_MEMORY` (5) classified
edges: the two result lists together hold at most 5 hashes, each list is a
subsequence of the first five candidates' hashes in input order, and at
most 5 edges are added to the store; with 7 candidates all at 0.8 the
relates_to list is exactly the first five, in input order. -/
theorem C2_relation_cap :
    (∀ (h c : String) (t cr : Option String) (now : String)
        (cands : List (String × ℚ)) (g : Graph) (o : Oracle) (k : ℕ),
        ((sync_with_provenance h c t cr cands now g o k).1.relates_to.length
            + (sync_with_provenance h c t cr cands now g o k).1.supersedes.length
              ≤ MAX_RELATIONS_PER_MEMORY) ∧
        (sync_with_provenance h c t cr cands now g o k).1.relates_to.Sublist
          ((cands.take MAX_RELATIONS_PER_MEMORY).map Prod.fst) ∧
        (sync_with_provenance h c t cr cands now g o k).1.supersedes.Sublist
          ((cands.take MAX_RELATIONS_PER_MEMORY).map Prod.fst) ∧
        (sync_with_provenance h c t cr cands now g o k).2.1.edges.length
          ≤ g.edges.length + MAX_RELATIONS_PER_MEMORY) ∧
    (sync_with_provenance "h" "body" none none
        [("c1", mkRat 8 10), ("c2", mkRat 8 10), ("c3", mkRat 8 10),
         ("c4", mkRat 8 10), ("c5", mkRat 8 10), ("c6", mkRat 8 10),
         ("c7", mkRat 8 10)] "now" emptyStore okOracle 0).1.relates_to
      = ["c1", "c2", "c3", "c4", "c5"] := by
  constructor
  · intro h c t cr now cands g o k
    rw [sync_with_provenance]
    cases hcr : (add_memory_node h c t cr now g o k).1
    · rw [if_neg Bool.false_ne_true]
      dsimp only []
      refine ⟨by simp [MAX_RELATIONS_PER_MEMORY], List.nil_sublist _,
        List.nil_sublist _, ?_⟩
      rw [add_memory_node_edges]
      omega
    · rw [if_pos rfl]
      dsimp only []
      rcases syncLoop_lists h now o (cands.take MAX_RELATIONS_PER_MEMORY)
        (add_memory_node h c t cr now g o k).2.1
        (add_memory_node h c t cr now g o k).2.2 with ⟨l1, s1, s2, _, _⟩
      have hT : (cands.take MAX_RELATIONS_PER_MEMORY).length
          ≤ MAX_RELATIONS_PER_MEMORY := List.length_take_le _ _
      refine ⟨by omega, s1, s2, ?_⟩
      have := syncLoop_edges_length h now o (cands.take MAX_RELATIONS_PER_MEMORY)
        (add_memory_node h c t cr now g o k).2.1
        (add_memory_node h c t cr now g o k).2.2
      rw [add_memory_node_edges] at this
      omega
  · decide

/-- C4 counterexample: the first-five slice is taken before the self check,
so a self candidate among the first five consumes a cap slot.  With the
self hash first and five later candidates all at 0.8 (≥ 0.75), edges are
created for only four of them, not five. -/
theorem C4_self_cap_counterexample :
    (sync_with_provenance "a" "body" none none
        [("a", mkRat 8 10), ("b1", mkRat 8 10), ("b2", mkRat 8 10),
         ("b3", mkRat 8 10), ("b4", mkRat 8 10), ("b5", mkRat 8 10)] "now"
        emptyStore okOracle 0).1.relates_to = ["b1", "b2", "b3", "b4"] ∧
    (sync_with_provenance "a" "body" none none
        [("a", mkRat 8 10), ("b1", mkRat 8 10), ("b2", mkRat 8 10),
         ("b3", mkRat 8 10), ("b4", mkRat 8 10), ("b5", mkRat 8 10)] "now"
        emptyStore okOracle 0).1.supersedes = [] ∧
    (sync_with_provenance "a" "body" none none
        [("a", mkRat 8 10), ("b1", mkRat 8 10), ("b2", mkRat 8 10),
         ("b3", mkRat 8 10), ("b4", mkRat 8 10), ("b5", mkRat 8 10)] "now"
        emptyStore okOracle 0).2.1.edges.length = 4 := by decide

/-- C4 amended: a candidate whose hash equals the new memory's hash never
yields an edge (the new hash never appears in either result list), but it
does count against the cap, because the slice of the first five candidates
is taken before the self check: with a self entry first and five later
candidates at 0.8, edges are created for only the four that fit the
slice. -/
theorem C4_self_skip_amended :
    (∀ (h c : String) (t cr : Option String) (now : String)
        (cands : List (String × ℚ)) (g : Graph) (o : Oracle) (k : ℕ),
        h ∉ (sync_with_provenance h c t cr cands now g o k).1.relates_to ∧
        h ∉ (sync_with_provenance h c t cr cands now g o k).1.supersedes) ∧
    (sync_with_provenance "a" "body" none none
        [("a", mkRat 8 10), ("b1", mkRat 8 10), ("b2", mkRat 8 10),
         ("b3", mkRat 8 10), ("b4", mkRat 8 10), ("b5", mkRat 8 10)] "now"
        emptyStore okOracle 0).1.relates_to = ["b1", "b2", "b3", "b4"] := by
  constructor
  · intro h c t cr now cands g o k
    rw [sync_with_provenance]
    cases hcr : (add_memory_node h c t cr now g o k).1
    · dsimp only []
      simp
    · dsimp only []
      rcases syncLoop_lists h now o (cands.take MAX_RELATIONS_PER_MEMORY)
        (add_memory_node h c t cr now g o k).2.1
        (add_memory_node h c t cr now g o k).2.2 with ⟨_, _, _, m1, m2⟩
      exact ⟨m1, m2⟩
  · decide

/-- C6 counterexample: `add_relates_to` has no self check; called with the
same existing hash for both endpoints it succeeds and creates a self-loop
edge, so the no-self-loop invariant fails for direct primitive calls. -/
theorem C6_self_loop_counterexample :
    ((add_relates_to "a" "a" (mkRat 8 10) none "now"
        (add_memory_node "a" "body" none none "now" emptyStore okOracle 0).2.1
        okOracle 2).1 = true) ∧
    ((add_relates_to "a" "a" (mkRat 8 10) none "now"
        (add_memory_node "a" "body" none none "now" emptyStore okOracle 0).2.1
        okOracle 2).2.1.edges.map (fun e => (e.src, e.tgt)) = [("a", "a")]) := by
  decide

/-- C6 amended: every edge created by `sync_with_provenance` (as opposed to
direct edge-primitive calls) goes from the new hash to a different hash, so
sync alone never introduces a self-loop; direct `add_relates_to` /
`add_supersedes` / `add_contradicts` calls with equal endpoint hashes do
create self-loops. -/
theorem C6_no_self_loops_amended :
    ∀ (h c : String) (t cr : Option String) (now : String)
      (cands : List (String × ℚ)) (g : Graph) (o : Oracle) (k : ℕ),
      ∀ e ∈ (sync_with_provenance h c t cr cands now g o k).2.1.edges,
        e ∈ g.edges ∨ e.src ≠ e.tgt := by
  intro h c t cr now cands g o k e he
  rw [sync_with_provenance] at he
  cases hcr : (add_memory_node h c t cr now g o k).1
  · rw [hcr] at he
    dsimp only [] at he
    rw [if_neg Bool.false_ne_true] at he
    dsimp only [] at he
    rw [add_memory_node_edges] at he
    exact Or.inl he
  · rw [hcr] at he
    dsimp only [] at he
    rw [if_pos rfl] at he
    dsimp only [] at he
    rcases syncLoop_edges h now o (cands.take MAX_RELATIONS_PER_MEMORY)
      (add_memory_node h c t cr now g o k).2.1
      (add_memory_node h c t cr now g o k).2.2 e he with h1 | h1
    · rw [add_memory_node_edges] at h1
      exact Or.inl h1
    · refine Or.inr (fun heq => h1.2 ?_)
      rw [← heq]
      exact h1.1

/-- Witness for C6 amended: the one edge a fresh single-candidate sync
creates satisfies the disjunction. -/
theorem C6_no_self_loops_amended_witness :
    (⟨.RELATES_TO, "a", "b", some (mkRat 8 10), none, "now"⟩ : Edge)
      ∈ (sync_with_provenance "a" "body" none none [("b", mkRat 8 10)] "now"
          emptyStore okOracle 0).2.1.edges ∧
    ((⟨.RELATES_TO, "a", "b", some (mkRat 8 10), none, "now"⟩ : Edge)
        ∈ emptyStore.edges ∨
      (⟨.RELATES_TO, "a", "b", some (mkRat 8 10), none, "now"⟩ : Edge).src
        ≠ (⟨.RELATES_TO, "a", "b", some (mkRat 8 10), none, "now"⟩ : Edge).tgt) :=
  ⟨by decide,
   C6_no_self_loops_amended "a" "body" none none "now" [("b", mkRat 8 10)]
     emptyStore okOracle 0 _ (by decide)⟩

/-- C7 counterexample: `ensure_node_exists` runs before classification, so
a sync whose only candidate scores 0.5 (below 0.75) still creates a stub
node for that candidate — a stub with no incident edge — refuting both
"no stub without an incident edge" and "no new node other than the synced
one". -/
theorem C7_stub_counterexample :
    (sync_with_provenance "a" "body" none none [("b", mkRat 5 10)] "now"
        emptyStore okOracle 0).1.relates_to = [] ∧
    (sync_with_provenance "a" "body" none none [("b", mkRat 5 10)] "now"
        emptyStore okOracle 0).1.supersedes = [] ∧
    (sync_with_provenance "a" "body" none none [("b", mkRat 5 10)] "now"
        emptyStore okOracle 0).2.1.edges = [] ∧
    (sync_with_provenance "a" "body" none none [("b", mkRat 5 10)] "now"
        emptyStore okOracle 0).2.1.nodes.map Node.hash = ["a", "b"] ∧
    (sync_with_provenance "a" "body" none none [("b", mkRat 5 10)] "now"
        emptyStore okOracle 0).2.1.nodes.map Node.memory_type
      = [_sanitize_string "unknown" 50, "stub"] := by decide

/-- C7 amended: the stub creation is unconditional for every retained
non-self candidate — it happens before classification — so a fresh sync
whose only candidate classifies to no edge still leaves a stub node for the
candidate and no edge at all. -/
theorem C7_stub_amended :
    ∀ (h rh body : String) (sim : ℚ) (t cr : Option String) (now : String),
      rh ≠ h → classify sim = .noEdge →
      (sync_with_provenance h body t cr [(rh, sim)] now emptyStore okOracle
            0).2.1.nodes.map Node.hash = [h, rh] ∧
      (sync_with_provenance h body t cr [(rh, sim)] now emptyStore okOracle
            0).2.1.nodes.map Node.memory_type
        = [_sanitize_string (pyOr t "unknown") 50, "stub"] ∧
      (sync_with_provenance h body t cr [(rh, sim)] now emptyStore okOracle
            0).2.1.edges = [] ∧
      (sync_with_provenance h body t cr [(rh, sim)] now emptyStore okOracle
            0).1.relates_to = [] ∧
      (sync_with_provenance h body t cr [(rh, sim)] now emptyStore okOracle
            0).1.supersedes = [] := by
  intro h rh body sim t cr now hne hcl
  have hbe : (rh == h) = false := beq_eq_false_iff_ne.mpr hne
  have hbe2 : (h == rh) = false := beq_eq_false_iff_ne.mpr (Ne.symm hne)
  simp [sync_with_provenance, add_memory_node, node_exists, hasNode, okOracle,
    emptyStore, MAX_RELATIONS_PER_MEMORY, syncLoop, ensure_node_exists, hcl,
    hbe, hbe2]

/-- Witness for C7 amended at a concrete below-threshold candidate. -/
theorem C7_stub_amended_witness :
    (sync_with_provenance "a" "body" none none [("b", mkRat 5 10)] "now"
          emptyStore okOracle 0).2.1.nodes.map Node.hash = ["a", "b"] ∧
    (sync_with_provenance "a" "body" none none [("b", mkRat 5 10)] "now"
          emptyStore okOracle 0).2.1.nodes.map Node.memory_type
      = [_sanitize_string (pyOr none "unknown") 50, "stub"] ∧
    (sync_with_provenance "a" "body" none none [("b", mkRat 5 10)] "now"
          emptyStore okOracle 0).2.1.edges = [] ∧
    (sync_with_provenance "a" "body" none none [("b", mkRat 5 10)] "now"
          emptyStore okOracle 0).1.relates_to = [] ∧
    (sync_with_provenance "a" "body" none none [("b", mkRat 5 10)] "now"
          emptyStore okOracle 0).1.supersedes = [] :=
  C7_stub_amended "a" "b" "body" (mkRat 5 10) none none "now" (by decide)
    (by decide)

/-- Whether a stats result is the error-marker dict. -/
def StatsResult.isError : StatsResult → Bool
  | .error _ => true
  | .ok _ => false

/-- C8: no public operation propagates a failure; each returns its
conservative sentinel when the store call raises: `false` for the boolean
operations (with the store untouched), the all-empty result for a sync
whose node `CREATE` fails, the empty list for the chain walker, and the
explicit error marker (never partial counts) for `get_stats`. -/
theorem C8_failure_sentinels :
    ∀ (g : Graph) (o : Oracle) (k : ℕ) (h c r now : String)
      (mt cr : Option String) (s : ℚ) (d : ℕ) (cands : List (String × ℚ)),
      (o k = false → node_exists h g o k = (false, g, k + 1)) ∧
      (o k = true → hasNode g h = false → o (k + 1) = false →
        add_memory_node h c mt cr now g o k = (false, g, k + 2)) ∧
      (o k = false → add_relates_to h c s cr now g o k = (false, g, k + 1)) ∧
      (o k = false → add_supersedes h c r cr now g o k = (false, g, k + 1)) ∧
      (o k = false → add_contradicts h c r cr now g o k = (false, g, k + 1)) ∧
      (o k = true → hasNode g h = false → o (k + 1) = false →
        ensure_node_exists h now g o k = (false, g, k + 2)) ∧
      (o k = true → hasNode g h = false → o (k + 1) = false →
        sync_with_provenance h c mt cr cands now g o k
          = (⟨false, [], [], []⟩, g, k + 2)) ∧
      (o k = false → get_provenance_chain h d g o k = ([], g, k + 1)) ∧
      ((o k = false ∨ o (k + 1) = false ∨ o (k + 2) = false ∨
          o (k + 3) = false ∨ o (k + 4) = false ∨ o (k + 5) = false) →
        (get_stats g o k).1.isError = true ∧ (get_stats g o k).2.1 = g) := by
  intro g o k h c r now mt cr s d cands
  refine ⟨?_, ?_, ?_, ?_, ?_, ?_, ?_, ?_, ?_⟩
  · intro hf
    simp [node_exists, hf]
  · intro h1 h2 h3
    simp [add_memory_node, node_exists, h1, h2, h3]
  · intro hf
    simp [add_relates_to, hf]
  · intro hf
    simp [add_supersedes, hf]
  · intro hf
    simp [add_contradicts, hf]
  · intro h1 h2 h3
    simp [ensure_node_exists, node_exists, h1, h2, h3]
  · intro h1 h2 h3
    simp [sync_with_provenance, add_memory_node, node_exists, h1, h2, h3]
  · intro hf
    simp [get_provenance_chain, hf]
  · intro hf
    cases h0 : o k <;> cases h1 : o (k + 1) <;> cases h2 : o (k + 2) <;>
      cases h3 : o (k + 3) <;> cases h4 : o (k + 4) <;> cases h5 : o (k + 5) <;>
      rcases hf with hf | hf | hf | hf | hf | hf <;>
      simp_all [get_stats, StatsResult.isError]

/-- Witness for C8: each sentinel at a concrete failing trace. -/
theorem C8_failure_sentinels_witness :
    node_exists "a" emptyStore (fun _ => false) 0 = (false, emptyStore, 1) ∧
    add_memory_node "a" "body" none none "now" emptyStore (fun i => i == 0) 0
      = (false, emptyStore, 2) ∧
    add_relates_to "a" "b" (mkRat 8 10) none "now" emptyStore (fun _ => false) 0
      = (false, emptyStore, 1) ∧
    add_supersedes "a" "b" "r" none "now" emptyStore (fun _ => false) 0
      = (false, emptyStore, 1) ∧
    add_contradicts "a" "b" "r" none "now" emptyStore (fun _ => false) 0
      = (false, emptyStore, 1) ∧
    ensure_node_exists "a" "now" emptyStore (fun i => i == 0) 0
      = (false, emptyStore, 2) ∧
    sync_with_provenance "a" "body" none none [("b", mkRat 8 10)] "now"
        emptyStore (fun i => i == 0) 0 = (⟨false, [], [], []⟩, emptyStore, 2) ∧
    get_provenance_chain "a" 3 emptyStore (fun _ => false) 0
      = ([], emptyStore, 1) ∧
    ((get_stats emptyStore (fun _ => false) 0).1.isError = true ∧
      (get_stats emptyStore (fun _ => false) 0).2.1 = emptyStore) :=
  ⟨(C8_failure_sentinels emptyStore (fun _ => false) 0 "a" "body" "r" "now"
      none none (mkRat 8 10) 3 [("b", mkRat 8 10)]).1 rfl,
   (C8_failure_sentinels emptyStore (fun i => i == 0) 0 "a" "body" "r" "now"
      none none (mkRat 8 10) 3 [("b", mkRat 8 10)]).2.1 rfl (by decide) rfl,
   (C8_failure_sentinels emptyStore (fun _ => false) 0 "a" "b" "r" "now"
      none none (mkRat 8 10) 3 [("b", mkRat 8 10)]).2.2.1 rfl,
   (C8_failure_sentinels emptyStore (fun _ => false) 0 "a" "b" "r" "now"
      none none (mkRat 8 10) 3 [("b", mkRat 8 10)]).2.2.2.1 rfl,
   (C8_failure_sentinels emptyStore (fun _ => false) 0 "a" "b" "r" "now"
      none none (mkRat 8 10) 3 [("b", mkRat 8 10)]).2.2.2.2.1 rfl,
   (C8_failure_sentinels emptyStore (fun i => i == 0) 0 "a" "body" "r" "now"
      none none (mkRat 8 10) 3 [("b", mkRat 8 10)]).2.2.2.2.2.1 rfl (by decide)
      rfl,
   (C8_failure_sentinels emptyStore (fun i => i == 0) 0 "a" "body" "r" "now"
      none none (mkRat 8 10) 3 [("b", mkRat 8 10)]).2.2.2.2.2.2.1 rfl
      (by decide) rfl,
   (C8_failure_sentinels emptyStore (fun _ => false) 0 "a" "b" "r" "now"
      none none (mkRat 8 10) 3 [("b", mkRat 8 10)]).2.2.2.2.2.2.2.1 rfl,
   (C8_failure_sentinels emptyStore (fun _ => false) 0 "a" "b" "r" "now"
      none none (mkRat 8 10) 3 [("b", mkRat 8 10)]).2.2.2.2.2.2.2.2
     (Or.inl rfl)⟩
